import Mathlib

set_option autoImplicit false

/-!
Verification of the canary-gate gate engine (KongZ/canary-gate).

Shallow embedding of:
* the gate decision engine (`store` package shared helpers),
* the three `Store` backends — in-process map (`MemoryStore`), Kubernetes
  ConfigMap (`ConfigMapStore`) and CanaryGate CRD (`CanaryGateStore`) —
  with the Kubernetes API server modelled as an explicit object map plus an
  injectable per-call fault schedule (conflict / not-found / other status
  errors), and `retry.RetryOnConflict(retry.DefaultRetry, ...)` modelled as
  a bounded (5-step) retry loop,
* the Flagger HTTP handler (webhook 200/403 decision, open/close/status
  endpoints) over the abstract `Store` interface.

Go runtime panics (failed type assertions, nil dereferences) are modelled
by `Option`: `none` is a panic.
-/

/-! ## Association lists (model of Go maps and of `sync.Map`) -/

/-- Lookup in an association list (Go map read). -/
def assocGet {κ α : Type} [DecidableEq κ] : List (κ × α) → κ → Option α
  | [], _ => none
  | (k', v) :: rest, k => if k' = k then some v else assocGet rest k

/-- Insert-or-replace in an association list (Go map write). -/
def assocSet {κ α : Type} [DecidableEq κ] : List (κ × α) → κ → α → List (κ × α)
  | [], k, v => [(k, v)]
  | (k', v') :: rest, k, v =>
      if k' = k then (k, v) :: rest else (k', v') :: assocSet rest k v

theorem assocGet_assocSet_self {κ α : Type} [DecidableEq κ] (l : List (κ × α)) (k : κ) (v : α) :
    assocGet (assocSet l k v) k = some v := by
  induction l with
  | nil => simp [assocGet, assocSet]
  | cons hd tl ih =>
      obtain ⟨k', v'⟩ := hd
      by_cases h : k' = k
      · simp [assocGet, assocSet, h]
      · simp [assocGet, assocSet, h, ih]

theorem assocGet_assocSet_ne {κ α : Type} [DecidableEq κ] (l : List (κ × α)) (k k' : κ) (v : α)
    (h : k ≠ k') : assocGet (assocSet l k v) k' = assocGet l k' := by
  induction l with
  | nil => simp [assocGet, assocSet, h]
  | cons hd tl ih =>
      obtain ⟨k0, v0⟩ := hd
      by_cases h0 : k0 = k
      · subst h0
        simp [assocGet, assocSet, h, Ne.symm h]
      · by_cases h1 : k0 = k'
        · subst h1
          simp [assocGet, assocSet, h0, Ne.symm h]
        · simp [assocGet, assocSet, h0, h1, ih]

/-! ## service.HookType constants (src/service/flagger.go) -/

def HookRollout : String := "rollout"

def HookPreRollout : String := "pre-rollout"

def HookPostRollout : String := "post-rollout"

def HookConfirmRollout : String := "confirm-rollout"

def HookConfirmPromotion : String := "confirm-promotion"

def HookEvent : String := "event"

def HookRollback : String := "rollback"

def HookConfirmTrafficIncrease : String := "confirm-traffic-increase"

def HookAll : String := "all"

/-- The seven promotion phases of the data model (spec section 3). -/
def gatePhases : List String :=
  [HookConfirmRollout, HookPreRollout, HookRollout, HookConfirmTrafficIncrease,
   HookConfirmPromotion, HookPostRollout, HookRollback]

/-! ## Gate decision engine (store package shared helpers) -/

/-- Gate store constant when gate is open. -/
def GATE_OPEN : String := "opened"

/-- Gate store constant when gate is closed. -/
def GATE_CLOSE : String := "closed"

/-- `store.StoreKey`: a unique key for a gate. The Go field `Type`
(a `service.HookType`, i.e. a string) is spelled `type` here because
`Type` is a Lean keyword. -/
structure StoreKey where
  Namespace : String
  Name : String
  type : String
deriving DecidableEq, Repr

/-- `defaultValue`: the default gate status based on the hook type
(`key.Type != service.HookRollback`). -/
def defaultValue (key : StoreKey) : Bool :=
  key.type != HookRollback

/-- `defaultText`: default text representation of the gate status. -/
def defaultText (key : StoreKey) : String :=
  if defaultValue key then GATE_OPEN else GATE_CLOSE

/-- `GateStatus`: boolean to gate-status string. -/
def GateStatus (val : Bool) : String :=
  if val then GATE_OPEN else GATE_CLOSE

/-- `GateBoolStatus`: gate-status string to boolean (`val == GATE_OPEN`). -/
def GateBoolStatus (val : String) : Bool :=
  val == GATE_OPEN

/-- `StoreKey.String()`: `namespace + "/" + name + "=" + type`. -/
def StoreKey.string (k : StoreKey) : String :=
  k.Namespace ++ "/" ++ k.Name ++ "=" ++ k.type

/-! ## MemoryStore (src/store/memory.go)

The `sync.Map` holds `interface{}` values: booleans (gate states) and
strings (event messages). A failed type assertion is a Go panic, modelled
as `none`. -/

/-- A value stored in the memory store map (`interface{}` in Go). -/
inductive MemVal where
  | b (v : Bool)
  | s (v : String)
deriving DecidableEq, Repr

structure MemoryStore where
  data : List (String × MemVal)
deriving DecidableEq, Repr

/-- `MemoryStore.getKey`: `fmt.Sprintf("%s:%s:%s", key.Namespace, key.Name, key.Type)`. -/
def MemoryStore.getKey (key : StoreKey) : String :=
  key.Namespace ++ ":" ++ key.Name ++ ":" ++ key.type

/-- `MemoryStore.getEventKey`: `fmt.Sprintf("%s:%s:%s", key.Namespace, key.Name, service.HookEvent)`. -/
def MemoryStore.getEventKey (key : StoreKey) : String :=
  key.Namespace ++ ":" ++ key.Name ++ ":" ++ HookEvent

/-- `MemoryStore.UpdateEvent`: stores the message under the event key. -/
def MemoryStore.UpdateEvent (m : MemoryStore) (key : StoreKey) (_status message : String) :
    MemoryStore :=
  ⟨assocSet m.data (MemoryStore.getEventKey key) (MemVal.s message)⟩

/-- `MemoryStore.GateOpen`: stores `true` under the gate key, then records the
event message. -/
def MemoryStore.GateOpen (m : MemoryStore) (key : StoreKey) : MemoryStore :=
  MemoryStore.UpdateEvent ⟨assocSet m.data (MemoryStore.getKey key) (MemVal.b true)⟩ key
    "Updated" ("Gate [" ++ key.string ++ "] is set to [" ++ GATE_OPEN ++ "]")

/-- `MemoryStore.GateClose`: stores `false` under the gate key, then records the
event message. -/
def MemoryStore.GateClose (m : MemoryStore) (key : StoreKey) : MemoryStore :=
  MemoryStore.UpdateEvent ⟨assocSet m.data (MemoryStore.getKey key) (MemVal.b false)⟩ key
    "Updated" ("Gate [" ++ key.string ++ "] is set to [" ++ GATE_CLOSE ++ "]")

/-- `MemoryStore.IsGateOpen`: `LoadOrStore(getKey(key), defaultValue(key))`
followed by a `val.(bool)` type assertion on the loaded value (`none` models
the panic when a string is stored under the gate key). -/
def MemoryStore.IsGateOpen (m : MemoryStore) (key : StoreKey) :
    Option (Bool × MemoryStore) :=
  match assocGet m.data (MemoryStore.getKey key) with
  | some (MemVal.b v) => some (v, m)
  | some (MemVal.s _) => none
  | none =>
      some (defaultValue key,
        ⟨assocSet m.data (MemoryStore.getKey key) (MemVal.b (defaultValue key))⟩)

/-- `MemoryStore.GetLastEvent`: loads the event key and asserts `v.(string)`
(`none` models the panic on a stored boolean); absent key yields `""`. -/
def MemoryStore.GetLastEvent (m : MemoryStore) (key : StoreKey) : Option String :=
  match assocGet m.data (MemoryStore.getEventKey key) with
  | some (MemVal.s v) => some v
  | some (MemVal.b _) => none
  | none => some ""

/-! ## Kubernetes API server model

The API server holds namespaced objects keyed by `(namespace, name)` and an
injectable fault schedule: each API call consumes one entry of `faults`
(`some e` fails the call with status error `e` without touching the
objects; an exhausted or `none` entry lets the call proceed normally).
All errors are `*k8serrors.StatusError`s; `notFound` answers
`k8serrors.IsNotFound` and `conflict` answers the `IsConflict` predicate
used by `retry.RetryOnConflict`. -/

inductive ApiErr where
  | notFound
  | conflict
  | alreadyExists
  | serverErr
deriving DecidableEq, Repr

structure Cluster (α : Type) where
  objects : List ((String × String) × α)
  faults : List (Option ApiErr)
deriving DecidableEq, Repr

/-- Consume the next injected fault (if any). -/
def Cluster.nextFault {α : Type} (st : Cluster α) : Option ApiErr × Cluster α :=
  match st.faults with
  | [] => (none, st)
  | f :: rest => (f, { st with faults := rest })

/-- GET of a namespaced object: returns `notFound` when absent. -/
def Cluster.get {α : Type} (st : Cluster α) (ns name : String) :
    Except ApiErr α × Cluster α :=
  match st.nextFault with
  | (some e, st1) => (Except.error e, st1)
  | (none, st1) =>
      match assocGet st1.objects (ns, name) with
      | some v => (Except.ok v, st1)
      | none => (Except.error ApiErr.notFound, st1)

/-- CREATE of a namespaced object: fails with `alreadyExists` when present. -/
def Cluster.create {α : Type} (st : Cluster α) (ns name : String) (v : α) :
    Option ApiErr × Cluster α :=
  match st.nextFault with
  | (some e, st1) => (some e, st1)
  | (none, st1) =>
      match assocGet st1.objects (ns, name) with
      | some _ => (some ApiErr.alreadyExists, st1)
      | none => (none, { st1 with objects := assocSet st1.objects (ns, name) v })

/-- UPDATE of a namespaced object: fails with `notFound` when absent. -/
def Cluster.update {α : Type} (st : Cluster α) (ns name : String) (v : α) :
    Option ApiErr × Cluster α :=
  match st.nextFault with
  | (some e, st1) => (some e, st1)
  | (none, st1) =>
      match assocGet st1.objects (ns, name) with
      | some _ => (none, { st1 with objects := assocSet st1.objects (ns, name) v })
      | none => (some ApiErr.notFound, st1)

/-- `retry.DefaultRetry.Steps` (`wait.Backoff{Steps: 5, ...}`). -/
def DefaultRetrySteps : Nat := 5

/-- `retry.RetryOnConflict(retry.DefaultRetry, fn)`: run `fn` up to `steps`
times; a `nil` result or a non-conflict error stops the loop, a conflict is
retried; an exhausted budget returns the last conflict error. -/
def retryOnConflict {σ : Type} : Nat → (σ → Option ApiErr × σ) → σ → Option ApiErr × σ
  | 0, _, st => (some ApiErr.conflict, st)
  | n + 1, fn, st =>
      match fn st with
      | (none, st1) => (none, st1)
      | (some e, st1) =>
          if e = ApiErr.conflict then
            if n = 0 then (some ApiErr.conflict, st1) else retryOnConflict n fn st1
          else (some e, st1)

/-- `retryOnConflict` for closures that can panic (`none` = Go runtime panic,
propagated out of the loop). -/
def retryOnConflictP {σ : Type} :
    Nat → (σ → Option (Option ApiErr × σ)) → σ → Option (Option ApiErr × σ)
  | 0, _, st => some (some ApiErr.conflict, st)
  | n + 1, fn, st =>
      match fn st with
      | none => none
      | some (none, st1) => some (none, st1)
      | some (some e, st1) =>
          if e = ApiErr.conflict then
            if n = 0 then some (some ApiErr.conflict, st1) else retryOnConflictP n fn st1
          else some (some e, st1)

/-! ## ConfigMapStore (src/store/configmap.go)

A ConfigMap is persisted as its string-string `Data` dictionary; the API
server derives the object metadata from the lookup key, so `Cluster.get`
wraps the stored data as a `ConfigMapObj` named after the request. -/

/-- A fetched `corev1.ConfigMap` (metadata plus `Data`). -/
structure ConfigMapObj where
  Name : String
  Namespace : String
  Data : List (String × String)
deriving DecidableEq, Repr

def ConfigMapSuffix : String := "cgate"

/-- `ConfigMapStore`: the `configNS` field holds `CANARY_GATE_NAMESPACE`. -/
structure ConfigMapStore where
  configNS : String
deriving DecidableEq, Repr

/-- `getConfigMapName`: `fmt.Sprintf("%s-%s-%s", key.Namespace, key.Name, ConfigMapSuffix)`. -/
def ConfigMapStore.getConfigMapName (_s : ConfigMapStore) (key : StoreKey) : String :=
  key.Namespace ++ "-" ++ key.Name ++ "-" ++ ConfigMapSuffix

/-- `getConfigMapNamespace`: the control namespace if configured, else the
key's namespace. -/
def ConfigMapStore.getConfigMapNamespace (s : ConfigMapStore) (key : StoreKey) : String :=
  if s.configNS != "" then s.configNS else key.Namespace

/-- GET wrapper building the typed ConfigMap from the stored data. -/
def ConfigMapStore.GetConfigMap (s : ConfigMapStore) (st : Cluster (List (String × String)))
    (key : StoreKey) : Except ApiErr ConfigMapObj × Cluster (List (String × String)) :=
  let ns := s.getConfigMapNamespace key
  let confName := s.getConfigMapName key
  match st.get ns confName with
  | (Except.ok d, st1) => (Except.ok ⟨confName, ns, d⟩, st1)
  | (Except.error e, st1) => (Except.error e, st1)

/-- `createConfigMap`: builds a ConfigMap seeded with the accessed phase set
to its default text, CREATEs it (errors only logged) and returns the local
object (whose metadata namespace is unset, as in the Go code). -/
def ConfigMapStore.createConfigMap (s : ConfigMapStore) (st : Cluster (List (String × String)))
    (key : StoreKey) : ConfigMapObj × Cluster (List (String × String)) :=
  let confName := s.getConfigMapName key
  let ns := s.getConfigMapNamespace key
  let data := assocSet [] key.type (GateStatus (defaultValue key))
  let (_err, st1) := st.create ns confName data
  (⟨confName, "", data⟩, st1)

/-- `CreateConfigMapAndGet`: GET; on `notFound` lazily create then re-GET;
other status errors are returned. -/
def ConfigMapStore.CreateConfigMapAndGet (s : ConfigMapStore)
    (st : Cluster (List (String × String))) (key : StoreKey) :
    Except ApiErr ConfigMapObj × Cluster (List (String × String)) :=
  match s.GetConfigMap st key with
  | (Except.ok conf, st1) => (Except.ok conf, st1)
  | (Except.error e, st1) =>
      if e = ApiErr.notFound then
        let (_conf, st2) := s.createConfigMap st1 key
        s.GetConfigMap st2 key
      else (Except.error e, st1)

/-- The retry closure of `ConfigMapStore.UpdateEvent`: fetch (lazily
creating), write the `event` field back. -/
def ConfigMapStore.updateEventAttempt (s : ConfigMapStore) (key : StoreKey) (message : String)
    (st0 : Cluster (List (String × String))) : Option ApiErr × Cluster (List (String × String)) :=
  match s.CreateConfigMapAndGet st0 key with
  | (Except.error e, st1) => (some e, st1)
  | (Except.ok conf, st1) =>
      st1.update conf.Namespace conf.Name (assocSet conf.Data HookEvent message)

/-- `ConfigMapStore.UpdateEvent`: read-modify-write of the `event` field
under `RetryOnConflict`; a final error is only logged, never propagated. -/
def ConfigMapStore.UpdateEvent (s : ConfigMapStore) (st : Cluster (List (String × String)))
    (key : StoreKey) (_status message : String) : Cluster (List (String × String)) :=
  (retryOnConflict DefaultRetrySteps (s.updateEventAttempt key message) st).2

/-- The retry closure of `updateGate`: fetch (lazily creating), write the
phase field back, then record the event message (regardless of the update
error, as in the Go code). -/
def ConfigMapStore.updateGateAttempt (s : ConfigMapStore) (key : StoreKey) (val : Bool)
    (st0 : Cluster (List (String × String))) : Option ApiErr × Cluster (List (String × String)) :=
  match s.CreateConfigMapAndGet st0 key with
  | (Except.error e, st1) => (some e, st1)
  | (Except.ok conf, st1) =>
      let (uerr, st2) := st1.update conf.Namespace conf.Name
        (assocSet conf.Data key.type (GateStatus val))
      let st3 := s.UpdateEvent st2 key "Updated"
        ("Gate [" ++ key.string ++ "] is set to [" ++ GateStatus val ++ "]")
      (uerr, st3)

/-- `updateGate`: read-modify-write of the phase field under
`RetryOnConflict`. The first component is the `retryErr` that the Go code
logs and discards. -/
def ConfigMapStore.updateGate (s : ConfigMapStore) (st : Cluster (List (String × String)))
    (key : StoreKey) (val : Bool) : Option ApiErr × Cluster (List (String × String)) :=
  retryOnConflict DefaultRetrySteps (s.updateGateAttempt key val) st

/-- `ConfigMapStore.GateOpen`: no return value, failures only logged. -/
def ConfigMapStore.GateOpen (s : ConfigMapStore) (st : Cluster (List (String × String)))
    (key : StoreKey) : Cluster (List (String × String)) :=
  (s.updateGate st key true).2

/-- `ConfigMapStore.GateClose`: no return value, failures only logged. -/
def ConfigMapStore.GateClose (s : ConfigMapStore) (st : Cluster (List (String × String)))
    (key : StoreKey) : Cluster (List (String × String)) :=
  (s.updateGate st key false).2

/-- `ConfigMapStore.IsGateOpen`: lazily creates the ConfigMap, then reads
the phase field; an error or an absent field resolves to the phase default,
and a present field resolves to `val == GATE_OPEN`. -/
def ConfigMapStore.IsGateOpen (s : ConfigMapStore) (st : Cluster (List (String × String)))
    (key : StoreKey) : Bool × Cluster (List (String × String)) :=
  match s.CreateConfigMapAndGet st key with
  | (Except.error _, st1) => (defaultValue key, st1)
  | (Except.ok conf, st1) =>
      match assocGet conf.Data key.type with
      | some v => (v == GATE_OPEN, st1)
      | none => (defaultValue key, st1)

/-- `ConfigMapStore.GetLastEvent`: plain GET (no lazy create); any error
yields `""`, otherwise `conf.Data[service.HookEvent]` (zero value `""`). -/
def ConfigMapStore.GetLastEvent (s : ConfigMapStore) (st : Cluster (List (String × String)))
    (key : StoreKey) : String × Cluster (List (String × String)) :=
  match s.GetConfigMap st key with
  | (Except.error _, st1) => ("", st1)
  | (Except.ok conf, st1) => ((assocGet conf.Data HookEvent).getD "", st1)

/-! ## CanaryGateStore (src/store/canarygate.go)

The CRD backend persists a typed `CanaryGate` custom resource with a
structured spec (one string field per phase) and a status sub-resource.
The cluster stores the spec/status pair; `Cluster.get` is wrapped so the
fetched object carries the metadata of the request, as the API server
guarantees. -/

/-- `CanaryGateSpec`: one gate-state string per phase (zero value `""`). -/
structure CanaryGateSpec where
  ConfirmRollout : String
  PreRollout : String
  Rollout : String
  ConfirmTrafficIncrease : String
  ConfirmPromotion : String
  PostRollout : String
  Rollback : String
deriving DecidableEq, Repr

/-- The zero value of `CanaryGateSpec`. -/
def CanaryGateSpec.empty : CanaryGateSpec :=
  ⟨"", "", "", "", "", "", ""⟩

/-- `store.CanaryGateStatus`: the status sub-resource. -/
structure CanaryGateStatus where
  Name : String
  Namespace : String
  Status : String
  Message : String
deriving DecidableEq, Repr

def CanaryGateStatus.empty : CanaryGateStatus :=
  ⟨"", "", "", ""⟩

/-- The persisted part of a CanaryGate resource (spec plus status). -/
structure CanaryGateRec where
  Spec : CanaryGateSpec
  Status : CanaryGateStatus
deriving DecidableEq, Repr

/-- A fetched `CanaryGate` object (metadata, spec, status). -/
structure CanaryGate where
  Name : String
  Namespace : String
  Spec : CanaryGateSpec
  Status : CanaryGateStatus
deriving DecidableEq, Repr

/-- The `switch key.Type` in `UpdateCanaryGate` that writes the gate status
into the matching spec field; an unknown hook type matches no case and
leaves the spec unchanged. -/
def CanaryGateSpec.setGate (spec : CanaryGateSpec) (t status : String) : CanaryGateSpec :=
  if t = HookConfirmRollout then { spec with ConfirmRollout := status }
  else if t = HookPreRollout then { spec with PreRollout := status }
  else if t = HookRollout then { spec with Rollout := status }
  else if t = HookConfirmTrafficIncrease then { spec with ConfirmTrafficIncrease := status }
  else if t = HookPostRollout then { spec with PostRollout := status }
  else if t = HookConfirmPromotion then { spec with ConfirmPromotion := status }
  else if t = HookRollback then { spec with Rollback := status }
  else spec

/-- The `switch key.Type` in `IsGateOpen` that reads the matching spec
field; an unknown hook type leaves the initial `status := ""`. -/
def CanaryGateSpec.gateField (spec : CanaryGateSpec) (t : String) : String :=
  if t = HookConfirmRollout then spec.ConfirmRollout
  else if t = HookPreRollout then spec.PreRollout
  else if t = HookRollout then spec.Rollout
  else if t = HookConfirmTrafficIncrease then spec.ConfirmTrafficIncrease
  else if t = HookPostRollout then spec.PostRollout
  else if t = HookConfirmPromotion then spec.ConfirmPromotion
  else if t = HookRollback then spec.Rollback
  else ""

/-- `CanaryGateStore`: `configNS` holds `CANARY_GATE_NAMESPACE`. -/
structure CanaryGateStore where
  configNS : String
deriving DecidableEq, Repr

/-- `getCanaryGateName`: `fmt.Sprintf("%s-%s", key.Namespace, key.Name)`. -/
def CanaryGateStore.getCanaryGateName (_s : CanaryGateStore) (key : StoreKey) : String :=
  key.Namespace ++ "-" ++ key.Name

/-- `getCanaryGateNamespace`: the control namespace if configured, else the
key's namespace. -/
def CanaryGateStore.getCanaryGateNamespace (s : CanaryGateStore) (key : StoreKey) : String :=
  if s.configNS != "" then s.configNS else key.Namespace

/-- `GetCanaryGate`: GET and convert to the typed object. -/
def CanaryGateStore.GetCanaryGate (s : CanaryGateStore) (st : Cluster CanaryGateRec)
    (key : StoreKey) : Except ApiErr CanaryGate × Cluster CanaryGateRec :=
  let ns := s.getCanaryGateNamespace key
  let confName := s.getCanaryGateName key
  match st.get ns confName with
  | (Except.ok r, st1) => (Except.ok ⟨confName, ns, r.Spec, r.Status⟩, st1)
  | (Except.error e, st1) => (Except.error e, st1)

/-- `CreateCanaryGate`: CREATE a CanaryGate with zero-valued spec and status
(errors only logged); returns the local object. -/
def CanaryGateStore.CreateCanaryGate (s : CanaryGateStore) (st : Cluster CanaryGateRec)
    (key : StoreKey) : CanaryGate × Cluster CanaryGateRec :=
  let confName := s.getCanaryGateName key
  let ns := s.getCanaryGateNamespace key
  let (_err, st1) := st.create ns confName ⟨CanaryGateSpec.empty, CanaryGateStatus.empty⟩
  (⟨confName, ns, CanaryGateSpec.empty, CanaryGateStatus.empty⟩, st1)

/-- `CreateCanaryGateAndGet`: CREATE (result discarded) then GET; the Go
function returns a nil pointer when the re-GET fails. -/
def CanaryGateStore.CreateCanaryGateAndGet (s : CanaryGateStore) (st : Cluster CanaryGateRec)
    (key : StoreKey) : Option CanaryGate × Cluster CanaryGateRec :=
  let (_conf, st1) := s.CreateCanaryGate st key
  match s.GetCanaryGate st1 key with
  | (Except.ok c, st2) => (some c, st2)
  | (Except.error _, st2) => (none, st2)

/-- The body of `UpdateCanaryGate`'s retry closure after a non-nil object
has been obtained: write the gate status into the spec, stamp the status
name/namespace, and UPDATE. -/
def CanaryGateStore.updateGateBody (s : CanaryGateStore) (st : Cluster CanaryGateRec)
    (key : StoreKey) (val : Bool) (conf : CanaryGate) : Option ApiErr × Cluster CanaryGateRec :=
  let status := GateStatus val
  let spec1 := conf.Spec.setGate key.type status
  let status1 := { conf.Status with Name := key.Name, Namespace := key.Namespace }
  st.update (s.getCanaryGateNamespace key) conf.Name ⟨spec1, status1⟩

/-- The retry closure of `UpdateCanaryGate`: GET; a `notFound` triggers
`CreateCanaryGateAndGet`, whose nil result would be dereferenced by the
fallthrough (`none` = panic); other status errors are returned. -/
def CanaryGateStore.updateGateAttempt (s : CanaryGateStore) (key : StoreKey) (val : Bool)
    (st0 : Cluster CanaryGateRec) : Option (Option ApiErr × Cluster CanaryGateRec) :=
  match s.GetCanaryGate st0 key with
  | (Except.ok conf, st1) => some (s.updateGateBody st1 key val conf)
  | (Except.error e, st1) =>
      if e = ApiErr.notFound then
        match s.CreateCanaryGateAndGet st1 key with
        | (some conf, st2) => some (s.updateGateBody st2 key val conf)
        | (none, _st2) => none
      else some (some e, st1)

/-- `UpdateCanaryGate`: read-modify-write under `RetryOnConflict`. The
final retry error is only logged. -/
def CanaryGateStore.UpdateCanaryGate (s : CanaryGateStore) (st : Cluster CanaryGateRec)
    (key : StoreKey) (val : Bool) : Option (Option ApiErr × Cluster CanaryGateRec) :=
  retryOnConflictP DefaultRetrySteps (s.updateGateAttempt key val) st

/-- `CanaryGateStore.GateOpen`: `UpdateCanaryGate(ctx, key, true)`; no
return value, failures only logged (`none` = panic inside the update). -/
def CanaryGateStore.GateOpen (s : CanaryGateStore) (st : Cluster CanaryGateRec)
    (key : StoreKey) : Option (Cluster CanaryGateRec) :=
  (s.UpdateCanaryGate st key true).map (fun r => r.2)

/-- `CanaryGateStore.GateClose`: `UpdateCanaryGate(ctx, key, false)`. -/
def CanaryGateStore.GateClose (s : CanaryGateStore) (st : Cluster CanaryGateRec)
    (key : StoreKey) : Option (Cluster CanaryGateRec) :=
  (s.UpdateCanaryGate st key false).map (fun r => r.2)

/-- `CanaryGateStore.IsGateOpen`: GET; a missing resource is only logged
(the `// TODO create canarygate` branch creates nothing) and, like any
other error, resolves to the phase default via `status == ""`; a non-empty
stored field resolves through `GateBoolStatus`. -/
def CanaryGateStore.IsGateOpen (s : CanaryGateStore) (st : Cluster CanaryGateRec)
    (key : StoreKey) : Bool × Cluster CanaryGateRec :=
  match s.GetCanaryGate st key with
  | (Except.error _, st1) => (defaultValue key, st1)
  | (Except.ok conf, st1) =>
      let status := conf.Spec.gateField key.type
      if status = "" then (defaultValue key, st1) else (GateBoolStatus status, st1)

/-! ## FlaggerHandler (src/unnamed/part_010, package handler)

The handler is modelled over the abstract `store.Store` interface: a state
type `σ` plus the interface methods (all total here; the handlers below
are only instantiated with backends whose operations cannot panic). A
request whose JSON body parses successfully is modelled by the decoded
payload itself; `readPayload` failures (HTTP 400) never reach the store
and are outside these definitions. -/

namespace Handler

/-- The `store.Store` interface as a record of state-passing methods. -/
structure StoreOps (σ : Type) where
  GateOpen : σ → StoreKey → σ
  GateClose : σ → StoreKey → σ
  IsGateOpen : σ → StoreKey → Bool × σ
  UpdateEvent : σ → StoreKey → String → String → σ
  GetLastEvent : σ → StoreKey → String × σ

/-- `CanaryWebhookPayload`: body of a Flagger phase-webhook call. -/
structure CanaryWebhookPayload where
  Name : String
  Namespace : String
  Phase : String
  Checksum : String
  Metadata : List (String × String)
deriving DecidableEq, Repr

/-- `CanaryGatePayload`: body of an open/close/status request (Go field
`Type` spelled `type`). -/
structure CanaryGatePayload where
  type : String
  Name : String
  Namespace : String
deriving DecidableEq, Repr

/-- `CanaryGateStatus` (handler package): one status record of the
open/close/status JSON response. -/
structure CanaryGateStatus where
  type : String
  Name : String
  Namespace : String
  Status : String
deriving DecidableEq, Repr

/-- An HTTP response: status code and plain-text body. -/
structure HttpResponse where
  status : Nat
  body : String
deriving DecidableEq, Repr

/-- `createKey`: `fmt.Sprintf("%s/%s", namespace, name)`. -/
def createKey (namespace_ name : String) : String :=
  namespace_ ++ "/" ++ name

/-- `createResponse`: `result[key] = append(result[key], gateStatus)` on the
response map. -/
def createResponse (result : List (String × List CanaryGateStatus))
    (namespace_ name t status : String) : List (String × List CanaryGateStatus) :=
  let key := createKey namespace_ name
  match assocGet result key with
  | some l => assocSet result key (l ++ [⟨t, name, namespace_, status⟩])
  | none => assocSet result key [⟨t, name, namespace_, status⟩]

/-- `responseAPI`: build a fresh response map holding the single record and
write it with HTTP 200. -/
def responseAPI (gate : CanaryGatePayload) (status : String) :
    Nat × List (String × List CanaryGateStatus) :=
  (200, createResponse [] gate.Namespace gate.Name gate.type status)

/-- `responseWebhook`: checks `IsGateOpen` for `(namespace, name, hookType)`
and answers 200/"Approved" or 403/"Forbidden". -/
def responseWebhook {σ : Type} (ops : StoreOps σ) (st : σ)
    (canary : CanaryWebhookPayload) (hookType : String) : HttpResponse × σ :=
  let (approved, st1) := ops.IsGateOpen st ⟨canary.Namespace, canary.Name, hookType⟩
  if approved then (⟨200, "Approved"⟩, st1) else (⟨403, "Forbidden"⟩, st1)

/-- `OpenGate` endpoint (body already parsed): `GateOpen` then
`responseAPI(w, gate, store.GATE_OPEN)`. -/
def OpenGate {σ : Type} (ops : StoreOps σ) (st : σ) (gate : CanaryGatePayload) :
    (Nat × List (String × List CanaryGateStatus)) × σ :=
  let st1 := ops.GateOpen st ⟨gate.Namespace, gate.Name, gate.type⟩
  (responseAPI gate GATE_OPEN, st1)

/-- `CloseGate` endpoint (body already parsed): `GateClose` then
`responseAPI(w, gate, store.GATE_CLOSE)`. -/
def CloseGate {σ : Type} (ops : StoreOps σ) (st : σ) (gate : CanaryGatePayload) :
    (Nat × List (String × List CanaryGateStatus)) × σ :=
  let st1 := ops.GateClose st ⟨gate.Namespace, gate.Name, gate.type⟩
  (responseAPI gate GATE_CLOSE, st1)

/-- `StatusGate` endpoint (body already parsed): the sentinel type `all`
fans out over the seven phases, then a synthetic `event` record carrying
`GetLastEvent` (queried with a zero-valued hook type) is appended, and the
map is written with HTTP 200. -/
def StatusGate {σ : Type} (ops : StoreOps σ) (st : σ) (gate : CanaryGatePayload) :
    (Nat × List (String × List CanaryGateStatus)) × σ :=
  let gateTypes : List String :=
    if gate.type = HookAll then
      [HookConfirmRollout, HookPreRollout, HookRollout, HookConfirmTrafficIncrease,
       HookConfirmPromotion, HookPostRollout, HookRollback]
    else [gate.type]
  let step := fun (acc : List (String × List CanaryGateStatus) × σ) (gt : String) =>
    let (isOpen, st1) := ops.IsGateOpen acc.2 ⟨gate.Namespace, gate.Name, gt⟩
    (createResponse acc.1 gate.Namespace gate.Name gt (GateStatus isOpen), st1)
  let (m, st1) := gateTypes.foldl step ([], st)
  let (event, st2) := ops.GetLastEvent st1 ⟨gate.Namespace, gate.Name, ""⟩
  ((200, createResponse m gate.Namespace gate.Name HookEvent event), st2)

end Handler

/-- The `ConfigMapStore` backend seen through the `store.Store` interface. -/
def configMapOps (s : ConfigMapStore) : Handler.StoreOps (Cluster (List (String × String))) where
  GateOpen := s.GateOpen
  GateClose := s.GateClose
  IsGateOpen := s.IsGateOpen
  UpdateEvent := s.UpdateEvent
  GetLastEvent := s.GetLastEvent

/-! ## Shared helper lemmas -/

theorem assocSet_of_assocGet_eq {κ α : Type} [DecidableEq κ] (l : List (κ × α)) (k : κ) (v : α)
    (h : assocGet l k = some v) : assocSet l k v = l := by
  induction l with
  | nil => simp [assocGet] at h
  | cons hd tl ih =>
      obtain ⟨k0, v0⟩ := hd
      by_cases h0 : k0 = k
      · subst h0
        simp [assocGet] at h
        simp [assocSet, h]
      · simp [assocGet, h0] at h
        simp [assocSet, h0, ih h]

theorem string_append_cancel_left {a b c : String} (h : a ++ b = a ++ c) : b = c := by
  have hd : a.data ++ b.data = a.data ++ c.data := by
    have h2 := congrArg String.data h
    simpa [String.data_append] using h2
  exact String.ext (List.append_cancel_left hd)

theorem GateStatus_beq_open (b : Bool) : (GateStatus b == GATE_OPEN) = b := by
  cases b <;> rfl

theorem GateBoolStatus_GateStatus (b : Bool) : GateBoolStatus (GateStatus b) = b := by
  cases b <;> rfl

theorem GateStatus_ne_empty (b : Bool) : GateStatus b ≠ "" := by
  cases b <;> decide

theorem mem_gatePhases_ne_event {t : String} (h : t ∈ gatePhases) : t ≠ HookEvent := by
  simp only [gatePhases, List.mem_cons, List.not_mem_nil, or_false] at h
  rcases h with h | h | h | h | h | h | h <;> subst h <;> decide

theorem getKey_ne_getEventKey (key : StoreKey) (h : key.type ≠ HookEvent) :
    MemoryStore.getKey key ≠ MemoryStore.getEventKey key := by
  intro hEq
  exact h (string_append_cancel_left hEq)

theorem gateField_setGate_self (spec : CanaryGateSpec) (t v : String) (ht : t ∈ gatePhases) :
    (spec.setGate t v).gateField t = v := by
  simp only [gatePhases, List.mem_cons, List.not_mem_nil, or_false] at ht
  rcases ht with h | h | h | h | h | h | h <;> subst h <;>
    simp [CanaryGateSpec.setGate, CanaryGateSpec.gateField, HookConfirmRollout,
      HookPreRollout, HookRollout, HookConfirmTrafficIncrease, HookConfirmPromotion,
      HookPostRollout, HookRollback]

theorem retryOnConflict_succ_none {σ : Type} (n : Nat) (fn : σ → Option ApiErr × σ) (st st1 : σ)
    (h : fn st = (none, st1)) : retryOnConflict (n + 1) fn st = (none, st1) := by
  simp [retryOnConflict, h]

theorem retryOnConflict_default_none {σ : Type} (fn : σ → Option ApiErr × σ) (st st1 : σ)
    (h : fn st = (none, st1)) : retryOnConflict DefaultRetrySteps fn st = (none, st1) :=
  retryOnConflict_succ_none 4 fn st st1 h

theorem retryOnConflictP_succ_ok {σ : Type} (n : Nat) (fn : σ → Option (Option ApiErr × σ))
    (st st1 : σ) (h : fn st = some (none, st1)) :
    retryOnConflictP (n + 1) fn st = some (none, st1) := by
  simp [retryOnConflictP, h]

theorem retryOnConflictP_default_ok {σ : Type} (fn : σ → Option (Option ApiErr × σ))
    (st st1 : σ) (h : fn st = some (none, st1)) :
    retryOnConflictP DefaultRetrySteps fn st = some (none, st1) :=
  retryOnConflictP_succ_ok 4 fn st st1 h

/-- The data of the ConfigMap that a fault-free lazy fetch returns: the
stored data, or the freshly seeded data when the object was absent. -/
def cmLazyData (s : ConfigMapStore) (key : StoreKey)
    (o : List ((String × String) × List (String × String))) : List (String × String) :=
  (assocGet o (s.getConfigMapNamespace key, s.getConfigMapName key)).getD
    (assocSet [] key.type (GateStatus (defaultValue key)))

theorem createConfigMapAndGet_nofault (s : ConfigMapStore)
    (o : List ((String × String) × List (String × String))) (key : StoreKey) :
    s.CreateConfigMapAndGet ⟨o, []⟩ key =
      (Except.ok ⟨s.getConfigMapName key, s.getConfigMapNamespace key, cmLazyData s key o⟩,
       ⟨assocSet o (s.getConfigMapNamespace key, s.getConfigMapName key) (cmLazyData s key o), []⟩) := by
  cases hget : assocGet o (s.getConfigMapNamespace key, s.getConfigMapName key) with
  | some d =>
      simp [ConfigMapStore.CreateConfigMapAndGet, ConfigMapStore.GetConfigMap, Cluster.get,
        Cluster.nextFault, hget, cmLazyData, assocSet_of_assocGet_eq _ _ _ hget]
  | none =>
      simp [ConfigMapStore.CreateConfigMapAndGet, ConfigMapStore.GetConfigMap, Cluster.get,
        Cluster.nextFault, ConfigMapStore.createConfigMap, Cluster.create, hget, cmLazyData,
        assocGet_assocSet_self]

theorem configMap_updateEvent_nofault (s : ConfigMapStore)
    (o : List ((String × String) × List (String × String))) (key : StoreKey) (stt msg : String) :
    s.UpdateEvent ⟨o, []⟩ key stt msg =
      ⟨assocSet (assocSet o (s.getConfigMapNamespace key, s.getConfigMapName key) (cmLazyData s key o))
         (s.getConfigMapNamespace key, s.getConfigMapName key)
         (assocSet (cmLazyData s key o) HookEvent msg), []⟩ := by
  have hattempt : s.updateEventAttempt key msg ⟨o, []⟩ =
      (none,
       ⟨assocSet (assocSet o (s.getConfigMapNamespace key, s.getConfigMapName key) (cmLazyData s key o))
          (s.getConfigMapNamespace key, s.getConfigMapName key)
          (assocSet (cmLazyData s key o) HookEvent msg), []⟩) := by
    simp [ConfigMapStore.updateEventAttempt, createConfigMapAndGet_nofault, Cluster.update,
      Cluster.nextFault, assocGet_assocSet_self]
  simp [ConfigMapStore.UpdateEvent, retryOnConflict_default_none _ _ _ hattempt]

theorem configMap_updateGate_nofault (s : ConfigMapStore)
    (o : List ((String × String) × List (String × String))) (key : StoreKey) (val : Bool) :
    s.updateGate ⟨o, []⟩ key val =
      (none,
       ⟨assocSet
          (assocSet (assocSet o (s.getConfigMapNamespace key, s.getConfigMapName key) (cmLazyData s key o))
             (s.getConfigMapNamespace key, s.getConfigMapName key)
             (assocSet (cmLazyData s key o) key.type (GateStatus val)))
          (s.getConfigMapNamespace key, s.getConfigMapName key)
          (assocSet (assocSet (cmLazyData s key o) key.type (GateStatus val)) HookEvent
            ("Gate [" ++ key.string ++ "] is set to [" ++ GateStatus val ++ "]")), []⟩) := by
  have hupd : Cluster.update
      (⟨assocSet o (s.getConfigMapNamespace key, s.getConfigMapName key) (cmLazyData s key o), []⟩ :
        Cluster (List (String × String)))
      (s.getConfigMapNamespace key) (s.getConfigMapName key)
      (assocSet (cmLazyData s key o) key.type (GateStatus val)) =
      (none,
       ⟨assocSet (assocSet o (s.getConfigMapNamespace key, s.getConfigMapName key) (cmLazyData s key o))
          (s.getConfigMapNamespace key, s.getConfigMapName key)
          (assocSet (cmLazyData s key o) key.type (GateStatus val)), []⟩) := by
    simp [Cluster.update, Cluster.nextFault, assocGet_assocSet_self]
  have hev := configMap_updateEvent_nofault s
    (assocSet (assocSet o (s.getConfigMapNamespace key, s.getConfigMapName key) (cmLazyData s key o))
       (s.getConfigMapNamespace key, s.getConfigMapName key)
       (assocSet (cmLazyData s key o) key.type (GateStatus val)))
    key "Updated" ("Gate [" ++ key.string ++ "] is set to [" ++ GateStatus val ++ "]")
  have hlazy2 : cmLazyData s key
      (assocSet (assocSet o (s.getConfigMapNamespace key, s.getConfigMapName key) (cmLazyData s key o))
         (s.getConfigMapNamespace key, s.getConfigMapName key)
         (assocSet (cmLazyData s key o) key.type (GateStatus val))) =
      assocSet (cmLazyData s key o) key.type (GateStatus val) := by
    simp [cmLazyData, assocGet_assocSet_self]
  rw [hlazy2] at hev
  have hcollapse : assocSet
      (assocSet (assocSet o (s.getConfigMapNamespace key, s.getConfigMapName key) (cmLazyData s key o))
         (s.getConfigMapNamespace key, s.getConfigMapName key)
         (assocSet (cmLazyData s key o) key.type (GateStatus val)))
      (s.getConfigMapNamespace key, s.getConfigMapName key)
      (assocSet (cmLazyData s key o) key.type (GateStatus val)) =
      assocSet (assocSet o (s.getConfigMapNamespace key, s.getConfigMapName key) (cmLazyData s key o))
        (s.getConfigMapNamespace key, s.getConfigMapName key)
        (assocSet (cmLazyData s key o) key.type (GateStatus val)) := by
    apply assocSet_of_assocGet_eq
    simp [assocGet_assocSet_self]
  rw [hcollapse] at hev
  have hattempt : s.updateGateAttempt key val ⟨o, []⟩ =
      (none,
       ⟨assocSet
          (assocSet (assocSet o (s.getConfigMapNamespace key, s.getConfigMapName key) (cmLazyData s key o))
             (s.getConfigMapNamespace key, s.getConfigMapName key)
             (assocSet (cmLazyData s key o) key.type (GateStatus val)))
          (s.getConfigMapNamespace key, s.getConfigMapName key)
          (assocSet (assocSet (cmLazyData s key o) key.type (GateStatus val)) HookEvent
            ("Gate [" ++ key.string ++ "] is set to [" ++ GateStatus val ++ "]")), []⟩) := by
    rw [ConfigMapStore.updateGateAttempt, createConfigMapAndGet_nofault]
    simp only []
    rw [hupd]
    simp only []
    rw [hev]
  simp [ConfigMapStore.updateGate, retryOnConflict_default_none _ _ _ hattempt]

theorem configMap_write_read (s : ConfigMapStore)
    (o : List ((String × String) × List (String × String))) (key : StoreKey) (val : Bool)
    (h : key.type ≠ HookEvent) :
    (s.IsGateOpen (s.updateGate ⟨o, []⟩ key val).2 key).1 = val := by
  rw [configMap_updateGate_nofault]
  have hget : assocGet
      (assocSet
        (assocSet (assocSet o (s.getConfigMapNamespace key, s.getConfigMapName key) (cmLazyData s key o))
           (s.getConfigMapNamespace key, s.getConfigMapName key)
           (assocSet (cmLazyData s key o) key.type (GateStatus val)))
        (s.getConfigMapNamespace key, s.getConfigMapName key)
        (assocSet (assocSet (cmLazyData s key o) key.type (GateStatus val)) HookEvent
          ("Gate [" ++ key.string ++ "] is set to [" ++ GateStatus val ++ "]")))
      (s.getConfigMapNamespace key, s.getConfigMapName key) =
      some (assocSet (assocSet (cmLazyData s key o) key.type (GateStatus val)) HookEvent
        ("Gate [" ++ key.string ++ "] is set to [" ++ GateStatus val ++ "]")) :=
    assocGet_assocSet_self _ _ _
  simp [ConfigMapStore.IsGateOpen, ConfigMapStore.CreateConfigMapAndGet,
    ConfigMapStore.GetConfigMap, Cluster.get, Cluster.nextFault, hget,
    assocGet_assocSet_ne _ _ _ _ (Ne.symm h), assocGet_assocSet_self, GateStatus_beq_open]

theorem configMap_isGateOpen_fresh (s : ConfigMapStore) (key : StoreKey) :
    (s.IsGateOpen ⟨[], []⟩ key).1 = defaultValue key := by
  simp [ConfigMapStore.IsGateOpen, createConfigMapAndGet_nofault, cmLazyData, assocGet,
    assocGet_assocSet_self, GateStatus_beq_open]

theorem memory_isGateOpen_fresh (key : StoreKey) :
    ((MemoryStore.mk []).IsGateOpen key).map Prod.fst = some (defaultValue key) := by
  simp [MemoryStore.IsGateOpen, assocGet]

theorem memory_close_read (m : MemoryStore) (key : StoreKey) (h : key.type ≠ HookEvent) :
    ((m.GateClose key).IsGateOpen key).map Prod.fst = some false := by
  have hne : MemoryStore.getEventKey key ≠ MemoryStore.getKey key :=
    Ne.symm (getKey_ne_getEventKey key h)
  simp [MemoryStore.GateClose, MemoryStore.UpdateEvent, MemoryStore.IsGateOpen,
    assocGet_assocSet_ne _ _ _ _ hne, assocGet_assocSet_self]

theorem memory_open_read (m : MemoryStore) (key : StoreKey) (h : key.type ≠ HookEvent) :
    ((m.GateOpen key).IsGateOpen key).map Prod.fst = some true := by
  have hne : MemoryStore.getEventKey key ≠ MemoryStore.getKey key :=
    Ne.symm (getKey_ne_getEventKey key h)
  simp [MemoryStore.GateOpen, MemoryStore.UpdateEvent, MemoryStore.IsGateOpen,
    assocGet_assocSet_ne _ _ _ _ hne, assocGet_assocSet_self]

/-- The record that a fault-free lazy fetch of a CanaryGate returns: the
stored record, or the zero-valued record when the resource was absent. -/
def crdLazyRec (gs : CanaryGateStore) (key : StoreKey)
    (go : List ((String × String) × CanaryGateRec)) : CanaryGateRec :=
  (assocGet go (gs.getCanaryGateNamespace key, gs.getCanaryGateName key)).getD
    ⟨CanaryGateSpec.empty, CanaryGateStatus.empty⟩

theorem crd_updateCanaryGate_nofault (gs : CanaryGateStore)
    (go : List ((String × String) × CanaryGateRec)) (key : StoreKey) (val : Bool) :
    gs.UpdateCanaryGate ⟨go, []⟩ key val =
      some (none,
        ⟨assocSet (assocSet go (gs.getCanaryGateNamespace key, gs.getCanaryGateName key) (crdLazyRec gs key go))
           (gs.getCanaryGateNamespace key, gs.getCanaryGateName key)
           ⟨(crdLazyRec gs key go).Spec.setGate key.type (GateStatus val),
            { (crdLazyRec gs key go).Status with Name := key.Name, Namespace := key.Namespace }⟩, []⟩) := by
  have hattempt : gs.updateGateAttempt key val ⟨go, []⟩ =
      some (none,
        ⟨assocSet (assocSet go (gs.getCanaryGateNamespace key, gs.getCanaryGateName key) (crdLazyRec gs key go))
           (gs.getCanaryGateNamespace key, gs.getCanaryGateName key)
           ⟨(crdLazyRec gs key go).Spec.setGate key.type (GateStatus val),
            { (crdLazyRec gs key go).Status with Name := key.Name, Namespace := key.Namespace }⟩, []⟩) := by
    cases hget : assocGet go (gs.getCanaryGateNamespace key, gs.getCanaryGateName key) with
    | some r =>
        simp [CanaryGateStore.updateGateAttempt, CanaryGateStore.GetCanaryGate, Cluster.get,
          Cluster.nextFault, hget, CanaryGateStore.updateGateBody, Cluster.update, crdLazyRec,
          assocSet_of_assocGet_eq _ _ _ hget]
    | none =>
        simp [CanaryGateStore.updateGateAttempt, CanaryGateStore.GetCanaryGate, Cluster.get,
          Cluster.nextFault, hget, CanaryGateStore.CreateCanaryGateAndGet,
          CanaryGateStore.CreateCanaryGate, Cluster.create, CanaryGateStore.updateGateBody,
          Cluster.update, crdLazyRec, assocGet_assocSet_self]
  simp [CanaryGateStore.UpdateCanaryGate, retryOnConflictP_default_ok _ _ _ hattempt]

theorem crd_isGateOpen_fresh (gs : CanaryGateStore) (key : StoreKey) :
    gs.IsGateOpen ⟨[], []⟩ key = (defaultValue key, ⟨[], []⟩) := by
  simp [CanaryGateStore.IsGateOpen, CanaryGateStore.GetCanaryGate, Cluster.get,
    Cluster.nextFault, assocGet]

theorem crd_write_read (gs : CanaryGateStore)
    (go : List ((String × String) × CanaryGateRec)) (key : StoreKey) (val : Bool)
    (ht : key.type ∈ gatePhases) :
    ((gs.UpdateCanaryGate ⟨go, []⟩ key val).map
      (fun r => (gs.IsGateOpen r.2 key).1)) = some val := by
  rw [crd_updateCanaryGate_nofault]
  have hget := assocGet_assocSet_self
    (assocSet go (gs.getCanaryGateNamespace key, gs.getCanaryGateName key) (crdLazyRec gs key go))
    (gs.getCanaryGateNamespace key, gs.getCanaryGateName key)
    (⟨(crdLazyRec gs key go).Spec.setGate key.type (GateStatus val),
      { (crdLazyRec gs key go).Status with Name := key.Name, Namespace := key.Namespace }⟩ : CanaryGateRec)
  simp [CanaryGateStore.IsGateOpen, CanaryGateStore.GetCanaryGate, Cluster.get,
    Cluster.nextFault, hget, gateField_setGate_self _ _ _ ht, GateStatus_ne_empty,
    GateBoolStatus_GateStatus]

theorem memory_event_roundtrip (m : MemoryStore) (k1 k2 : StoreKey)
    (hns : k1.Namespace = k2.Namespace) (hnm : k1.Name = k2.Name) (stt msg : String) :
    (m.UpdateEvent k1 stt msg).GetLastEvent k2 = some msg := by
  have hkey : MemoryStore.getEventKey k1 = MemoryStore.getEventKey k2 := by
    simp [MemoryStore.getEventKey, hns, hnm]
  simp [MemoryStore.UpdateEvent, MemoryStore.GetLastEvent, hkey, assocGet_assocSet_self]

theorem configMap_event_roundtrip (s : ConfigMapStore)
    (o : List ((String × String) × List (String × String))) (k1 k2 : StoreKey)
    (hns : k1.Namespace = k2.Namespace) (hnm : k1.Name = k2.Name) (stt msg : String) :
    (s.GetLastEvent (s.UpdateEvent ⟨o, []⟩ k1 stt msg) k2).1 = msg := by
  rw [configMap_updateEvent_nofault]
  have hname : s.getConfigMapName k2 = s.getConfigMapName k1 := by
    simp [ConfigMapStore.getConfigMapName, hns, hnm]
  have hnsp : s.getConfigMapNamespace k2 = s.getConfigMapNamespace k1 := by
    simp [ConfigMapStore.getConfigMapNamespace, hns]
  simp [ConfigMapStore.GetLastEvent, ConfigMapStore.GetConfigMap, Cluster.get,
    Cluster.nextFault, hname, hnsp, assocGet_assocSet_self]

theorem createResponse_nil (ns nm t st : String) :
    Handler.createResponse [] ns nm t st = [(Handler.createKey ns nm, [⟨t, nm, ns, st⟩])] := by
  simp [Handler.createResponse, assocGet, assocSet]

theorem createResponse_append (ns nm t st : String) (l : List Handler.CanaryGateStatus) :
    Handler.createResponse [(Handler.createKey ns nm, l)] ns nm t st =
      [(Handler.createKey ns nm, l ++ [⟨t, nm, ns, st⟩])] := by
  simp [Handler.createResponse, assocGet, assocSet]

/-- A fault schedule that lets every read succeed but makes all five
attempts of one gate update fail with a write conflict (four API calls per
attempt: gate GET, conflicting gate UPDATE, event GET, event UPDATE). -/
def conflictFaults : List (Option ApiErr) :=
  [none, some ApiErr.conflict, none, none,
   none, some ApiErr.conflict, none, none,
   none, some ApiErr.conflict, none, none,
   none, some ApiErr.conflict, none, none,
   none, some ApiErr.conflict, none, none]

/-! ## Claim theorems -/

/-- C1: for every backend (in-process map, ConfigMap, CanaryGate CRD), a
freshly created key with no prior writes has `IsGateOpen` equal to `true`
for every phase among confirm-rollout, pre-rollout, rollout,
confirm-traffic-increase, confirm-promotion and post-rollout, and equal to
`false` for the rollback phase. -/
theorem c1_fresh_key_default_per_phase (ns name cfgNS : String) (p : String)
    (hp : p ∈ [HookConfirmRollout, HookPreRollout, HookRollout, HookConfirmTrafficIncrease,
               HookConfirmPromotion, HookPostRollout]) :
    (((MemoryStore.mk []).IsGateOpen ⟨ns, name, p⟩).map Prod.fst = some true
      ∧ ((ConfigMapStore.mk cfgNS).IsGateOpen ⟨[], []⟩ ⟨ns, name, p⟩).1 = true
      ∧ ((CanaryGateStore.mk cfgNS).IsGateOpen ⟨[], []⟩ ⟨ns, name, p⟩).1 = true)
    ∧ (((MemoryStore.mk []).IsGateOpen ⟨ns, name, HookRollback⟩).map Prod.fst = some false
      ∧ ((ConfigMapStore.mk cfgNS).IsGateOpen ⟨[], []⟩ ⟨ns, name, HookRollback⟩).1 = false
      ∧ ((CanaryGateStore.mk cfgNS).IsGateOpen ⟨[], []⟩ ⟨ns, name, HookRollback⟩).1 = false) := by
  have hd : defaultValue ⟨ns, name, p⟩ = true := by
    simp only [List.mem_cons, List.not_mem_nil, or_false] at hp
    rcases hp with h | h | h | h | h | h <;> subst h <;> simp [defaultValue] <;> decide
  have hr : defaultValue ⟨ns, name, HookRollback⟩ = false := by simp [defaultValue]
  refine ⟨⟨?_, ?_, ?_⟩, ?_, ?_, ?_⟩
  · rw [memory_isGateOpen_fresh, hd]
  · rw [configMap_isGateOpen_fresh, hd]
  · rw [crd_isGateOpen_fresh]
    exact hd
  · rw [memory_isGateOpen_fresh, hr]
  · rw [configMap_isGateOpen_fresh, hr]
  · rw [crd_isGateOpen_fresh]
    exact hr

/-- Witness for C1 at the test suite's key `(canary-ns, test-canary)`. -/
theorem c1_fresh_key_default_per_phase_witness :
    HookConfirmRollout ∈ [HookConfirmRollout, HookPreRollout, HookRollout,
      HookConfirmTrafficIncrease, HookConfirmPromotion, HookPostRollout]
    ∧ ((((MemoryStore.mk []).IsGateOpen
          ⟨"canary-ns", "test-canary", HookConfirmRollout⟩).map Prod.fst = some true
        ∧ ((ConfigMapStore.mk "").IsGateOpen ⟨[], []⟩
            ⟨"canary-ns", "test-canary", HookConfirmRollout⟩).1 = true
        ∧ ((CanaryGateStore.mk "").IsGateOpen ⟨[], []⟩
            ⟨"canary-ns", "test-canary", HookConfirmRollout⟩).1 = true)
      ∧ (((MemoryStore.mk []).IsGateOpen
            ⟨"canary-ns", "test-canary", HookRollback⟩).map Prod.fst = some false
        ∧ ((ConfigMapStore.mk "").IsGateOpen ⟨[], []⟩
            ⟨"canary-ns", "test-canary", HookRollback⟩).1 = false
        ∧ ((CanaryGateStore.mk "").IsGateOpen ⟨[], []⟩
            ⟨"canary-ns", "test-canary", HookRollback⟩).1 = false)) :=
  ⟨by decide, c1_fresh_key_default_per_phase "canary-ns" "test-canary" "" HookConfirmRollout
    (by decide)⟩

/-- C2: for every gate key (a key whose hook type is one of the seven
promotion phases) and every backend, regardless of the gate's prior state,
`GateClose` immediately followed by `IsGateOpen` returns `false` and
`GateOpen` immediately followed by `IsGateOpen` returns `true` (the two
external backends are run against a fault-free substrate holding arbitrary
prior objects; the CRD mutations are total there, so `Option.map` reads
their result). -/
theorem c2_gate_close_open_idempotent (key : StoreKey) (hp : key.type ∈ gatePhases)
    (m : MemoryStore) (s : ConfigMapStore)
    (o : List ((String × String) × List (String × String)))
    (gs : CanaryGateStore) (go : List ((String × String) × CanaryGateRec)) :
    ((m.GateClose key).IsGateOpen key).map Prod.fst = some false
    ∧ ((m.GateOpen key).IsGateOpen key).map Prod.fst = some true
    ∧ (s.IsGateOpen (s.GateClose ⟨o, []⟩ key) key).1 = false
    ∧ (s.IsGateOpen (s.GateOpen ⟨o, []⟩ key) key).1 = true
    ∧ (gs.GateClose ⟨go, []⟩ key).map (fun st => (gs.IsGateOpen st key).1) = some false
    ∧ (gs.GateOpen ⟨go, []⟩ key).map (fun st => (gs.IsGateOpen st key).1) = some true := by
  have hev := mem_gatePhases_ne_event hp
  refine ⟨memory_close_read m key hev, memory_open_read m key hev, ?_, ?_, ?_, ?_⟩
  · exact configMap_write_read s o key false hev
  · exact configMap_write_read s o key true hev
  · simpa [CanaryGateStore.GateClose, Option.map_map, Function.comp]
      using crd_write_read gs go key false hp
  · simpa [CanaryGateStore.GateOpen, Option.map_map, Function.comp]
      using crd_write_read gs go key true hp

/-- Witness for C2 at the spec's rollback scenario key. -/
theorem c2_gate_close_open_idempotent_witness :
    (⟨"canary-ns", "test-canary", HookRollback⟩ : StoreKey).type ∈ gatePhases
    ∧ (((MemoryStore.mk []).GateClose ⟨"canary-ns", "test-canary", HookRollback⟩).IsGateOpen
        ⟨"canary-ns", "test-canary", HookRollback⟩).map Prod.fst = some false
    ∧ (((MemoryStore.mk []).GateOpen ⟨"canary-ns", "test-canary", HookRollback⟩).IsGateOpen
        ⟨"canary-ns", "test-canary", HookRollback⟩).map Prod.fst = some true
    ∧ ((ConfigMapStore.mk "").IsGateOpen
        ((ConfigMapStore.mk "").GateClose ⟨[], []⟩ ⟨"canary-ns", "test-canary", HookRollback⟩)
        ⟨"canary-ns", "test-canary", HookRollback⟩).1 = false
    ∧ ((ConfigMapStore.mk "").IsGateOpen
        ((ConfigMapStore.mk "").GateOpen ⟨[], []⟩ ⟨"canary-ns", "test-canary", HookRollback⟩)
        ⟨"canary-ns", "test-canary", HookRollback⟩).1 = true
    ∧ ((CanaryGateStore.mk "").GateClose ⟨[], []⟩ ⟨"canary-ns", "test-canary", HookRollback⟩).map
        (fun st => ((CanaryGateStore.mk "").IsGateOpen st
          ⟨"canary-ns", "test-canary", HookRollback⟩).1) = some false
    ∧ ((CanaryGateStore.mk "").GateOpen ⟨[], []⟩ ⟨"canary-ns", "test-canary", HookRollback⟩).map
        (fun st => ((CanaryGateStore.mk "").IsGateOpen st
          ⟨"canary-ns", "test-canary", HookRollback⟩).1) = some true := by
  have h := c2_gate_close_open_idempotent ⟨"canary-ns", "test-canary", HookRollback⟩
    (by decide) ⟨[]⟩ ⟨""⟩ [] ⟨""⟩ []
  exact ⟨by decide, h.1, h.2.1, h.2.2.1, h.2.2.2.1, h.2.2.2.2.1, h.2.2.2.2.2⟩

/-- C3: for every phase-webhook request with a well-formed body, the
handler responds HTTP 200 with body "Approved" when `IsGateOpen` returns
true for the (namespace, name, phase) key and HTTP 403 with body
"Forbidden" when it returns false — stated for every store implementing
the interface, plus the spec's concrete scenario on the ConfigMap backend
(default-open gate answers 200/"Approved"; after `GateClose` on the same
key the same call answers 403/"Forbidden"). -/
theorem c3_webhook_approved_forbidden :
    (∀ (σ : Type) (ops : Handler.StoreOps σ) (st : σ)
        (canary : Handler.CanaryWebhookPayload) (hookType : String),
      Handler.responseWebhook ops st canary hookType =
        ((if (ops.IsGateOpen st ⟨canary.Namespace, canary.Name, hookType⟩).1
            then ⟨200, "Approved"⟩ else ⟨403, "Forbidden"⟩ : Handler.HttpResponse),
          (ops.IsGateOpen st ⟨canary.Namespace, canary.Name, hookType⟩).2))
    ∧ (Handler.responseWebhook (configMapOps ⟨""⟩) ⟨[], []⟩
        ⟨"test-canary", "canary-ns", "", "", []⟩ HookConfirmRollout).1 = ⟨200, "Approved"⟩
    ∧ (Handler.responseWebhook (configMapOps ⟨""⟩)
        ((ConfigMapStore.mk "").GateClose ⟨[], []⟩ ⟨"canary-ns", "test-canary", HookConfirmRollout⟩)
        ⟨"test-canary", "canary-ns", "", "", []⟩ HookConfirmRollout).1 = ⟨403, "Forbidden"⟩ := by
  refine ⟨?_, by rfl, by rfl⟩
  intro σ ops st canary hookType
  unfold Handler.responseWebhook
  cases hh : ops.IsGateOpen st ⟨canary.Namespace, canary.Name, hookType⟩ with
  | mk approved st1 => cases approved <;> simp

/-- C4 counterexample: a present but malformed gate value ("garbage") on a
confirm-rollout gate makes `IsGateOpen` return `false`, while the phase
default is `true` — so a malformed value is NOT treated as absent. -/
theorem c4_malformed_value_counterexample :
    ((ConfigMapStore.mk "").IsGateOpen
        ⟨[(("ns", "ns-app-cgate"), [("confirm-rollout", "garbage")])], []⟩
        ⟨"ns", "app", HookConfirmRollout⟩).1 = false
    ∧ defaultValue ⟨"ns", "app", HookConfirmRollout⟩ = true :=
  ⟨by rfl, by rfl⟩

/-- C4 amended: `IsGateOpen` never surfaces a parse error; a present gate
value is parsed permissively — the ConfigMap backend returns
`val == "opened"` (so any malformed value resolves to closed) and the CRD
backend returns `GateBoolStatus` of any non-empty stored field — while the
phase default applies only to an absent (or, for the CRD, empty) field. -/
theorem c4_malformed_value_resolves_closed (s : ConfigMapStore)
    (o : List ((String × String) × List (String × String)))
    (key : StoreKey) (d : List (String × String)) (v : String)
    (hobj : assocGet o (s.getConfigMapNamespace key, s.getConfigMapName key) = some d)
    (hval : assocGet d key.type = some v)
    (gs : CanaryGateStore) (go : List ((String × String) × CanaryGateRec)) (r : CanaryGateRec)
    (hgobj : assocGet go (gs.getCanaryGateNamespace key, gs.getCanaryGateName key) = some r)
    (hne : r.Spec.gateField key.type ≠ "") :
    (s.IsGateOpen ⟨o, []⟩ key).1 = (v == GATE_OPEN)
    ∧ (gs.IsGateOpen ⟨go, []⟩ key).1 = GateBoolStatus (r.Spec.gateField key.type) := by
  constructor
  · simp [ConfigMapStore.IsGateOpen, ConfigMapStore.CreateConfigMapAndGet,
      ConfigMapStore.GetConfigMap, Cluster.get, Cluster.nextFault, hobj, hval]
  · simp [CanaryGateStore.IsGateOpen, CanaryGateStore.GetCanaryGate, Cluster.get,
      Cluster.nextFault, hgobj, hne]

/-- Witness for C4 with the malformed stored value "garbage". -/
theorem c4_malformed_value_resolves_closed_witness :
    assocGet [(("ns", "ns-app-cgate"), [("confirm-rollout", "garbage")])]
      ((ConfigMapStore.mk "").getConfigMapNamespace ⟨"ns", "app", HookConfirmRollout⟩,
       (ConfigMapStore.mk "").getConfigMapName ⟨"ns", "app", HookConfirmRollout⟩) =
      some [("confirm-rollout", "garbage")]
    ∧ assocGet [("confirm-rollout", "garbage")]
        (⟨"ns", "app", HookConfirmRollout⟩ : StoreKey).type = some "garbage"
    ∧ assocGet [(("ns", "ns-app"),
        (⟨⟨"garbage", "", "", "", "", "", ""⟩, CanaryGateStatus.empty⟩ : CanaryGateRec))]
        ((CanaryGateStore.mk "").getCanaryGateNamespace ⟨"ns", "app", HookConfirmRollout⟩,
         (CanaryGateStore.mk "").getCanaryGateName ⟨"ns", "app", HookConfirmRollout⟩) =
        some ⟨⟨"garbage", "", "", "", "", "", ""⟩, CanaryGateStatus.empty⟩
    ∧ (⟨⟨"garbage", "", "", "", "", "", ""⟩, CanaryGateStatus.empty⟩ : CanaryGateRec).Spec.gateField
        (⟨"ns", "app", HookConfirmRollout⟩ : StoreKey).type ≠ ""
    ∧ ((ConfigMapStore.mk "").IsGateOpen
        ⟨[(("ns", "ns-app-cgate"), [("confirm-rollout", "garbage")])], []⟩
        ⟨"ns", "app", HookConfirmRollout⟩).1 = ("garbage" == GATE_OPEN)
    ∧ ((CanaryGateStore.mk "").IsGateOpen
        ⟨[(("ns", "ns-app"),
           (⟨⟨"garbage", "", "", "", "", "", ""⟩, CanaryGateStatus.empty⟩ : CanaryGateRec))], []⟩
        ⟨"ns", "app", HookConfirmRollout⟩).1 = GateBoolStatus
          ((⟨⟨"garbage", "", "", "", "", "", ""⟩, CanaryGateStatus.empty⟩ : CanaryGateRec).Spec.gateField
            (⟨"ns", "app", HookConfirmRollout⟩ : StoreKey).type) := by
  have h := c4_malformed_value_resolves_closed ⟨""⟩
    [(("ns", "ns-app-cgate"), [("confirm-rollout", "garbage")])]
    ⟨"ns", "app", HookConfirmRollout⟩ [("confirm-rollout", "garbage")] "garbage"
    (by decide) (by decide) ⟨""⟩
    [(("ns", "ns-app"), ⟨⟨"garbage", "", "", "", "", "", ""⟩, CanaryGateStatus.empty⟩)]
    ⟨⟨"garbage", "", "", "", "", "", ""⟩, CanaryGateStatus.empty⟩ (by decide) (by decide)
  exact ⟨by decide, by decide, by decide, by decide, h.1, h.2⟩

/-- C5: the CRD backend does NOT lazily create the backing record on a
query — `IsGateOpen` on a never-seen key answers the default and leaves
the cluster empty (the source's `// TODO create canarygate` branch creates
nothing), while the ConfigMap backend does create on the same query and
the CRD mutation path does create its record. -/
theorem c5_crd_query_does_not_create :
    (CanaryGateStore.mk "").IsGateOpen ⟨[], []⟩ ⟨"canary-ns", "test-canary", HookConfirmRollout⟩ =
      (true, ⟨[], []⟩)
    ∧ ((ConfigMapStore.mk "").IsGateOpen ⟨[], []⟩
        ⟨"canary-ns", "test-canary", HookConfirmRollout⟩).2.objects ≠ []
    ∧ (((CanaryGateStore.mk "").GateOpen ⟨[], []⟩
        ⟨"canary-ns", "test-canary", HookConfirmRollout⟩).map (fun st => st.objects.length)) =
        some 1 :=
  ⟨rfl, by decide, by decide⟩

/-- C6 counterexample: the object lazily created by the ConfigMap backend
for key (ns, app, confirm-rollout) is NOT empty — it carries the accessed
phase field seeded with its default text. -/
theorem c6_lazy_create_counterexample :
    ((ConfigMapStore.mk "").IsGateOpen ⟨[], []⟩ ⟨"ns", "app", HookConfirmRollout⟩).2.objects =
      [(("ns", "ns-app-cgate"), [(HookConfirmRollout, GATE_OPEN)])] := by
  rfl

/-- C6 amended: the ConfigMap lazily created for a never-seen key is
seeded with exactly one phase field — the accessed key's phase set to its
default text — every other field is absent (so the other six phases still
resolve by default-value resolution), and in particular it does not
pre-populate all seven phases. -/
theorem c6_seeded_with_accessed_phase_only (s : ConfigMapStore) (key : StoreKey) (p : String)
    (hp : p ≠ key.type) :
    (s.createConfigMap ⟨[], []⟩ key).1.Data = [(key.type, GateStatus (defaultValue key))]
    ∧ assocGet (s.createConfigMap ⟨[], []⟩ key).1.Data p = none
    ∧ (s.createConfigMap ⟨[], []⟩ key).2.objects =
        [((s.getConfigMapNamespace key, s.getConfigMapName key),
          [(key.type, GateStatus (defaultValue key))])] := by
  refine ⟨rfl, ?_, ?_⟩
  · simp [ConfigMapStore.createConfigMap, assocGet, assocSet, Ne.symm hp]
  · simp [ConfigMapStore.createConfigMap, Cluster.create, Cluster.nextFault, assocGet, assocSet]

/-- Witness for C6: pre-rollout is absent from the object created for a
confirm-rollout access. -/
theorem c6_seeded_with_accessed_phase_only_witness :
    HookPreRollout ≠ (⟨"ns", "app", HookConfirmRollout⟩ : StoreKey).type
    ∧ ((ConfigMapStore.mk "").createConfigMap ⟨[], []⟩ ⟨"ns", "app", HookConfirmRollout⟩).1.Data =
        [((⟨"ns", "app", HookConfirmRollout⟩ : StoreKey).type,
          GateStatus (defaultValue ⟨"ns", "app", HookConfirmRollout⟩))]
    ∧ assocGet ((ConfigMapStore.mk "").createConfigMap ⟨[], []⟩
        ⟨"ns", "app", HookConfirmRollout⟩).1.Data HookPreRollout = none
    ∧ ((ConfigMapStore.mk "").createConfigMap ⟨[], []⟩ ⟨"ns", "app", HookConfirmRollout⟩).2.objects =
        [(((ConfigMapStore.mk "").getConfigMapNamespace ⟨"ns", "app", HookConfirmRollout⟩,
           (ConfigMapStore.mk "").getConfigMapName ⟨"ns", "app", HookConfirmRollout⟩),
          [((⟨"ns", "app", HookConfirmRollout⟩ : StoreKey).type,
            GateStatus (defaultValue ⟨"ns", "app", HookConfirmRollout⟩))])] := by
  have h := c6_seeded_with_accessed_phase_only ⟨""⟩ ⟨"ns", "app", HookConfirmRollout⟩
    HookPreRollout (by decide)
  exact ⟨by decide, h.1, h.2.1, h.2.2⟩

/-- C7: the open/close endpoints respond HTTP 200 carrying the requested
new state for EVERY substrate state — including any fault schedule, so the
response does not depend on whether the store write succeeded — and a
schedule of five straight write conflicts exhausts the retry budget inside
`updateGate`, whose final error is only logged (first component), never
propagated: `GateOpen`/`GateClose` return only the new substrate state. -/
theorem c7_mutation_failures_swallowed :
    (∀ (s : ConfigMapStore) (st : Cluster (List (String × String)))
        (gate : Handler.CanaryGatePayload),
        (Handler.OpenGate (configMapOps s) st gate).1 =
          (200, [(Handler.createKey gate.Namespace gate.Name,
                  [⟨gate.type, gate.Name, gate.Namespace, GATE_OPEN⟩])])
      ∧ (Handler.CloseGate (configMapOps s) st gate).1 =
          (200, [(Handler.createKey gate.Namespace gate.Name,
                  [⟨gate.type, gate.Name, gate.Namespace, GATE_CLOSE⟩])]))
    ∧ ((ConfigMapStore.mk "").updateGate ⟨[(("ns", "ns-app-cgate"), [])], conflictFaults⟩
        ⟨"ns", "app", HookRollout⟩ true).1 = some ApiErr.conflict := by
  constructor
  · intro s st gate
    constructor <;>
      simp [Handler.OpenGate, Handler.CloseGate, Handler.responseAPI, Handler.createResponse,
        assocGet, assocSet]
  · decide

/-- C8: a status request with the sentinel type "all" answers HTTP 200 and
a map with the single key "namespace/name" whose list holds exactly eight
records — one {type, name, namespace, status} record per phase in webhook
order, each status being `GateStatus` of that phase's `IsGateOpen`, plus a
final synthetic record of type "event" carrying the last stored event
message (queried by (namespace, name) with a zero-valued hook type). -/
theorem c8_status_all_returns_eight_records (s : ConfigMapStore)
    (st : Cluster (List (String × String))) (ns name : String) :
    Handler.StatusGate (configMapOps s) st ⟨HookAll, name, ns⟩ =
      (let r1 := s.IsGateOpen st ⟨ns, name, HookConfirmRollout⟩
       let r2 := s.IsGateOpen r1.2 ⟨ns, name, HookPreRollout⟩
       let r3 := s.IsGateOpen r2.2 ⟨ns, name, HookRollout⟩
       let r4 := s.IsGateOpen r3.2 ⟨ns, name, HookConfirmTrafficIncrease⟩
       let r5 := s.IsGateOpen r4.2 ⟨ns, name, HookConfirmPromotion⟩
       let r6 := s.IsGateOpen r5.2 ⟨ns, name, HookPostRollout⟩
       let r7 := s.IsGateOpen r6.2 ⟨ns, name, HookRollback⟩
       let ev := s.GetLastEvent r7.2 ⟨ns, name, ""⟩
       ((200, [(ns ++ "/" ++ name,
          [⟨HookConfirmRollout, name, ns, GateStatus r1.1⟩,
           ⟨HookPreRollout, name, ns, GateStatus r2.1⟩,
           ⟨HookRollout, name, ns, GateStatus r3.1⟩,
           ⟨HookConfirmTrafficIncrease, name, ns, GateStatus r4.1⟩,
           ⟨HookConfirmPromotion, name, ns, GateStatus r5.1⟩,
           ⟨HookPostRollout, name, ns, GateStatus r6.1⟩,
           ⟨HookRollback, name, ns, GateStatus r7.1⟩,
           ⟨HookEvent, name, ns, ev.1⟩])]), ev.2)) := by
  cases h1 : s.IsGateOpen st ⟨ns, name, HookConfirmRollout⟩ with
  | mk b1 t1 =>
  cases h2 : s.IsGateOpen t1 ⟨ns, name, HookPreRollout⟩ with
  | mk b2 t2 =>
  cases h3 : s.IsGateOpen t2 ⟨ns, name, HookRollout⟩ with
  | mk b3 t3 =>
  cases h4 : s.IsGateOpen t3 ⟨ns, name, HookConfirmTrafficIncrease⟩ with
  | mk b4 t4 =>
  cases h5 : s.IsGateOpen t4 ⟨ns, name, HookConfirmPromotion⟩ with
  | mk b5 t5 =>
  cases h6 : s.IsGateOpen t5 ⟨ns, name, HookPostRollout⟩ with
  | mk b6 t6 =>
  cases h7 : s.IsGateOpen t6 ⟨ns, name, HookRollback⟩ with
  | mk b7 t7 =>
  cases h8 : s.GetLastEvent t7 ⟨ns, name, ""⟩ with
  | mk ev t8 =>
  simp only [Handler.StatusGate, configMapOps, List.foldl_cons, List.foldl_nil, if_true,
    eq_self_iff_true, h1, h2, h3, h4, h5, h6, h7, h8, createResponse_nil, createResponse_append,
    List.cons_append, List.nil_append, List.singleton_append, List.append_assoc]
  simp [Handler.createKey]

/-- C9: an event message round-trips exactly through every event-capable
backend, and the event channel is keyed by (namespace, name) only: after
`UpdateEvent` on one key, `GetLastEvent` on any key sharing that
namespace and name — whatever its phase — returns exactly the message. -/
theorem c9_event_message_roundtrip (k1 k2 : StoreKey)
    (hns : k1.Namespace = k2.Namespace) (hnm : k1.Name = k2.Name)
    (m : MemoryStore) (s : ConfigMapStore)
    (o : List ((String × String) × List (String × String))) (stt msg : String) :
    (m.UpdateEvent k1 stt msg).GetLastEvent k2 = some msg
    ∧ (s.GetLastEvent (s.UpdateEvent ⟨o, []⟩ k1 stt msg) k2).1 = msg :=
  ⟨memory_event_roundtrip m k1 k2 hns hnm stt msg,
   configMap_event_roundtrip s o k1 k2 hns hnm stt msg⟩

/-- Witness for C9 with the test suite's event message, read back through a
key of a different phase. -/
theorem c9_event_message_roundtrip_witness :
    (⟨"canary-ns", "test-canary", HookRollout⟩ : StoreKey).Namespace =
      (⟨"canary-ns", "test-canary", ""⟩ : StoreKey).Namespace
    ∧ (⟨"canary-ns", "test-canary", HookRollout⟩ : StoreKey).Name =
      (⟨"canary-ns", "test-canary", ""⟩ : StoreKey).Name
    ∧ ((MemoryStore.mk []).UpdateEvent ⟨"canary-ns", "test-canary", HookRollout⟩
        "Succeeded" "Test event message").GetLastEvent ⟨"canary-ns", "test-canary", ""⟩ =
        some "Test event message"
    ∧ ((ConfigMapStore.mk "").GetLastEvent
        ((ConfigMapStore.mk "").UpdateEvent ⟨[], []⟩ ⟨"canary-ns", "test-canary", HookRollout⟩
          "Succeeded" "Test event message")
        ⟨"canary-ns", "test-canary", ""⟩).1 = "Test event message" := by
  have h := c9_event_message_roundtrip ⟨"canary-ns", "test-canary", HookRollout⟩
    ⟨"canary-ns", "test-canary", ""⟩ rfl rfl ⟨[]⟩ ⟨""⟩ [] "Succeeded" "Test event message"
  exact ⟨rfl, rfl, h.1, h.2⟩

/-- C10 counterexample: in the in-process store, `GateOpen` on a key of
phase type "event" followed by `GetLastEvent` does NOT perform a string
type assertion on a stored boolean — it succeeds, because `GateOpen`'s own
event side effect already overwrote the boolean in the shared slot with
its message string. -/
theorem c10_gateopen_getlastevent_counterexample :
    ((MemoryStore.mk []).GateOpen ⟨"a", "b", HookEvent⟩).GetLastEvent ⟨"a", "b", HookEvent⟩ =
      some "Gate [a/b=event] is set to [opened]" := by
  rfl

/-- C10 amended: for a key whose phase type is "event" the serialized gate
key equals the serialized event key, so both channels share one map slot;
`UpdateEvent` followed by `IsGateOpen` then asserts bool on the stored
string and panics (`IsGateOpen` is not total), while `GateOpen` followed
by `GetLastEvent` succeeds and returns `GateOpen`'s own event message,
because the `GateOpen` event side effect overwrites the just-stored
boolean with the message string. -/
theorem c10_event_key_collision_amended (ns nm : String) (m : MemoryStore) (stt msg : String) :
    MemoryStore.getKey ⟨ns, nm, HookEvent⟩ = MemoryStore.getEventKey ⟨ns, nm, HookEvent⟩
    ∧ (m.UpdateEvent ⟨ns, nm, HookEvent⟩ stt msg).IsGateOpen ⟨ns, nm, HookEvent⟩ = none
    ∧ (m.GateOpen ⟨ns, nm, HookEvent⟩).GetLastEvent ⟨ns, nm, HookEvent⟩ =
        some ("Gate [" ++ (⟨ns, nm, HookEvent⟩ : StoreKey).string ++ "] is set to ["
          ++ GATE_OPEN ++ "]") := by
  refine ⟨rfl, ?_, ?_⟩
  · simp [MemoryStore.UpdateEvent, MemoryStore.IsGateOpen, MemoryStore.getKey,
      MemoryStore.getEventKey, assocGet_assocSet_self]
  · simp [MemoryStore.GateOpen, MemoryStore.UpdateEvent, MemoryStore.GetLastEvent,
      MemoryStore.getKey, MemoryStore.getEventKey, assocGet_assocSet_self]
